import Mathlib

/-!
Verification of the taskbot remote-terminal system: a shallow embedding of the
relay broker (src/relay/server.py) and of the agent-side PTY/HTTP server
(src/agent/server.py), with theorems settling the specified properties.

Python dictionaries are embedded as association lists (first binding wins),
WebSocket handles as natural numbers, and coroutine effects (sends, closes,
signals) as explicit result lists.  A `put` on a bounded asyncio queue that
would block, and a dictionary index that would raise `KeyError`, are embedded
as `none`.
-/

namespace Taskbot

/-- Association-list embedding of a Python `dict` keyed by strings. -/
abbrev Dict (α : Type) := List (String × α)

/-- `d.get(k)` / `d[k]`: the first binding of `k`, if any. -/
def dlookup {α : Type} (k : String) : Dict α → Option α
  | [] => none
  | (k0, v) :: rest => if k0 = k then some v else dlookup k rest

/-- `d[k] = v`: replace the first binding of `k`, or append a new one. -/
def dinsert {α : Type} (k : String) (v : α) : Dict α → Dict α
  | [] => [(k, v)]
  | (k0, v0) :: rest =>
      if k0 = k then (k, v) :: rest else (k0, v0) :: dinsert k v rest

/-- `del d[k]` (and also used for `k not in d` bookkeeping). -/
def derase {α : Type} (k : String) : Dict α → Dict α
  | [] => []
  | (k0, v0) :: rest =>
      if k0 = k then derase k rest else (k0, v0) :: derase k rest

/-- JSON scalar values appearing in the protocol frames. -/
inductive JVal : Type
  | s (v : String)
  | b (v : Bool)
  | n (v : Nat)
deriving DecidableEq, Repr

/-- A protocol frame: a JSON object with a `type` discriminator and the
remaining fields (`message.get("type", "unknown")` makes `ty` total). -/
structure Frame where
  ty : String
  fields : List (String × JVal) := []
deriving DecidableEq, Repr

/-- Agent record (src/relay/server.py, `@dataclass class Agent`, lines 74-83).
The WebSocket handle is a `Nat`; timestamps are omitted (no claim uses them). -/
structure Agent where
  agent_id : String
  agent_key : String
  name : String := "unnamed"
  websocket : Option Nat := none
  is_online : Bool := false
deriving DecidableEq, Repr

/-- Client record (src/relay/server.py, `@dataclass class Client`, lines 86-92). -/
structure Client where
  client_id : String
  websocket : Nat
  connected_agent : Option String := none
deriving DecidableEq, Repr

/-- The relay's in-memory tables (`RelayServer.__init__`, lines 111-119). -/
structure RelayState where
  agents : Dict Agent
  clients : Dict Client
  agent_clients : Dict (List String)
deriving DecidableEq, Repr

/-- `RelayServer.register_agent` (lines 121-135).  The source draws `agent_id`
and `agent_key` from `secrets.token_urlsafe`; they are parameters here. -/
def register_agent (s : RelayState) (agent_id agent_key name : String) :
    RelayState × Agent :=
  let agent : Agent := { agent_id := agent_id, agent_key := agent_key, name := name }
  ({ s with
      agents := dinsert agent_id agent s.agents,
      agent_clients := dinsert agent_id [] s.agent_clients },
   agent)

/-- `RelayServer.verify_agent` (lines 141-151): look the agent up and compare
the supplied key against the stored one with the ordinary string inequality
`agent.agent_key != agent_key`. -/
def verify_agent (s : RelayState) (agent_id agent_key : String) : Option Agent :=
  match dlookup agent_id s.agents with
  | none => none
  | some agent => if agent.agent_key ≠ agent_key then none else some agent

/-- Character-comparison steps performed by the short-circuit string equality
that `verify_agent` uses (`agent.agent_key != agent_key`): the CPython runtime
compares equal-length strings left to right and stops at the first mismatching
character, so the step count is the length of the common prefix plus one on a
mismatch. -/
def cmpSteps : List Char → List Char → Nat
  | a :: as, b :: bs => if a = b then cmpSteps as bs + 1 else 1
  | _, _ => 0

/-- The comparison cost incurred by `verify_agent` for a candidate key once the
agent record was found (the key comparison on line 147). -/
def verifyRejectCost (s : RelayState) (agent_id agent_key : String) : Option Nat :=
  match dlookup agent_id s.agents with
  | none => none
  | some agent => some (cmpSteps agent.agent_key.toList agent_key.toList)

end Taskbot

namespace Taskbot

/-- C1, counterexample: the relay compares keys with a short-circuit string
inequality, not in constant time.  For the stored key "aaaa", the rejected
candidates "aaab" and "baaa" have equal length, yet the comparison step counts
differ (4 versus 1), so the time to reject depends on the matching prefix. -/
theorem C1_counterexample :
    verify_agent (register_agent ⟨[], [], []⟩ "A1" "aaaa" "laptop").1 "A1" "aaab" = none ∧
    verify_agent (register_agent ⟨[], [], []⟩ "A1" "aaaa" "laptop").1 "A1" "baaa" = none ∧
    "aaab".length = "baaa".length ∧
    verifyRejectCost (register_agent ⟨[], [], []⟩ "A1" "aaaa" "laptop").1 "A1" "aaab" = some 4 ∧
    verifyRejectCost (register_agent ⟨[], [], []⟩ "A1" "aaaa" "laptop").1 "A1" "baaa" = some 1 := by
  refine ⟨?_, ?_, ?_, ?_, ?_⟩ <;> decide

/-- C1, amended: `verify_agent` compares the supplied key against the stored
`agent_key` with an ordinary (short-circuit, not constant-time) string
equality, and returns the agent record exactly when the agent is registered
and the key equals the stored `agent_key`, and `none` otherwise. -/
theorem C1_verify_agent_functional (s : RelayState) (agent_id key : String) (a : Agent) :
    verify_agent s agent_id key = some a ↔
      dlookup agent_id s.agents = some a ∧ a.agent_key = key := by
  unfold verify_agent
  cases h : dlookup agent_id s.agents with
  | none => simp
  | some agent =>
      dsimp only
      by_cases hk : agent.agent_key = key
      · rw [if_neg (by simp [hk])]
        constructor
        · intro h2
          injection h2 with h2
          subst h2
          exact ⟨rfl, hk⟩
        · rintro ⟨h2, _⟩
          injection h2 with h2
          subst h2
          rfl
      · rw [if_pos hk]
        constructor
        · intro h2
          exact Option.noConfusion h2
        · rintro ⟨h2, h3⟩
          injection h2 with h2
          subst h2
          exact absurd h3 hk

end Taskbot

namespace Taskbot

/-! Agent side: the PTY session manager `ClaudeProcess` and the HTTP surface
(src/agent/server.py). -/

/-- Capacity of `ClaudeProcess.output_queue` (`asyncio.Queue(maxsize=1000)`, line 45). -/
def queueCapacity : Nat := 1000

/-- `await self.output_queue.put(chunk)` (line 118) on the bounded queue: enqueue at the
tail when below capacity; when the queue is full the coroutine suspends until a consumer
makes room, so nothing is enqueued and nothing is discarded (`none`). -/
def outputQueuePut (q : List String) (chunk : String) : Option (List String) :=
  if q.length < queueCapacity then some (q ++ [chunk]) else none

/-- Drop-oldest enqueue.  Modelled from the spec: "If the queue is full, the oldest frame
is discarded" — stated only for comparison with `outputQueuePut`, which is what the source
does. -/
def specDropOldestPut (q : List String) (chunk : String) : List String :=
  if q.length < queueCapacity then q ++ [chunk] else q.drop 1 ++ [chunk]

/-- Queue view of one iteration of the `_read_output` drain loop (lines 106-121): when
select reports readiness and the read yields a chunk, the decoded chunk is awaited into
the queue; a put that would overflow suspends and leaves the queue unchanged. -/
def drainStep (q : List String) (chunk : Option String) : List String :=
  match chunk with
  | none => q
  | some c =>
      match outputQueuePut q c with
      | some q2 => q2
      | none => q

theorem drainStep_length_le (q : List String) (c : Option String)
    (h : q.length ≤ queueCapacity) : (drainStep q c).length ≤ queueCapacity := by
  cases c with
  | none => exact h
  | some c =>
      unfold drainStep outputQueuePut
      by_cases hlt : q.length < queueCapacity
      · simp only [hlt, if_true]
        simp only [List.length_append, List.length_cons, List.length_nil]
        omega
      · simp only [hlt, if_false]
        exact h

/-- C2, counterexample: on a full queue the drain loop's `put` suspends the producer and
enqueues nothing (`none`), so the new chunk "y" is not enqueued and no old frame is
discarded — whereas the claimed drop-oldest policy would discard the head and enqueue
"y". -/
theorem C2_counterexample :
    outputQueuePut (List.replicate queueCapacity "x") "y" = none ∧
    "y" ∈ specDropOldestPut (List.replicate queueCapacity "x") "y" ∧
    "y" ∉ List.replicate queueCapacity "x" := by
  refine ⟨?_, ?_, ?_⟩
  · simp [outputQueuePut]
  · simp [specDropOldestPut]
  · simp [List.mem_replicate]

/-- C2, amended: the output queue never exceeds its capacity of 1000 frames along any run
of the drain loop, but on overflow the producer blocks (the put suspends): no frame is
discarded and the new chunk is not enqueued until a consumer makes room. -/
theorem C2_queue_bounded (q : List String) (chunks : List (Option String))
    (h : q.length ≤ queueCapacity) :
    ((chunks.foldl drainStep q).length ≤ queueCapacity) ∧
    (∀ c, q.length = queueCapacity → outputQueuePut q c = none ∧ drainStep q (some c) = q) := by
  constructor
  · induction chunks generalizing q with
    | nil => simpa using h
    | cons c cs ih =>
        simp only [List.foldl_cons]
        exact ih _ (drainStep_length_le q c h)
  · intro c hfull
    have hput : outputQueuePut q c = none := by
      unfold outputQueuePut
      rw [hfull, if_neg (lt_irrefl queueCapacity)]
    refine ⟨hput, ?_⟩
    simp only [drainStep, hput]

theorem C2_queue_bounded_witness :
    ([] : List String).length ≤ queueCapacity ∧
    (((([some "a", none, some "b"] : List (Option String)).foldl drainStep []).length
        ≤ queueCapacity) ∧
     (∀ c, ([] : List String).length = queueCapacity →
        outputQueuePut [] c = none ∧ drainStep [] (some c) = [])) :=
  ⟨by decide, C2_queue_bounded [] [some "a", none, some "b"] (by decide)⟩

/-- `resize_terminal`, the POST /resize handler (src/agent/server.py 366-376): rows and
cols are read from the JSON body with defaults 40 and 120 and handed to
`ClaudeProcess.resize` unmodified — the handler performs no clamping. -/
def resize_terminal (rows cols : Option Int) : Int × Int :=
  (rows.getD 40, cols.getD 120)

/-- `ClaudeProcess.resize` (lines 128-135): with the master fd open, the values are packed
into an unsigned-short winsize (`struct.pack "HHHH"`) and the TIOCSWINSZ ioctl is issued.
`struct.pack` raises for values outside 0..65535 (`some none`); otherwise the ioctl
receives exactly the given rows and cols (`some (some (rows, cols))`).  `none`: no master
fd, so no ioctl. -/
def ClaudeProcess.resize (masterFd : Option Nat) (rows cols : Int) :
    Option (Option (Int × Int)) :=
  match masterFd with
  | none => none
  | some _ =>
      if 0 ≤ rows ∧ rows < 65536 ∧ 0 ≤ cols ∧ cols < 65536 then
        some (some (rows, cols))
      else some none

/-- The full POST /resize pipeline, from JSON body fields to the ioctl argument. -/
def resizePipeline (masterFd : Option Nat) (rows cols : Option Int) :
    Option (Option (Int × Int)) :=
  ClaudeProcess.resize masterFd (resize_terminal rows cols).1 (resize_terminal rows cols).2

/-- C7, counterexample: a POST /resize body with rows = 2000 reaches the window-size ioctl
as 2000, outside the claimed clamp range 1..1000 — the handler performs no clamping. -/
theorem C7_counterexample :
    resizePipeline (some 3) (some 2000) (some 80) = some (some (2000, 80)) ∧
    ¬ ((2000 : Int) ≤ 1000) := by
  constructor
  · rfl
  · decide

/-- C7, amended: the resize endpoint passes rows and cols to the PTY ioctl unchanged,
without clamping; any value representable as an unsigned short (0..65535) is handed to the
ioctl exactly as requested, and values outside that range make `struct.pack` raise. -/
theorem C7_resize_unclamped (fd : Nat) (rows cols : Int)
    (h1 : 0 ≤ rows) (h2 : rows < 65536) (h3 : 0 ≤ cols) (h4 : cols < 65536) :
    resizePipeline (some fd) (some rows) (some cols) = some (some (rows, cols)) := by
  unfold resizePipeline resize_terminal ClaudeProcess.resize
  simp only [Option.getD_some]
  rw [if_pos ⟨h1, h2, h3, h4⟩]

theorem C7_resize_unclamped_witness :
    ((0 : Int) ≤ 2000 ∧ (2000 : Int) < 65536 ∧ (0 : Int) ≤ 80 ∧ (80 : Int) < 65536) ∧
    resizePipeline (some 3) (some 2000) (some 80) = some (some (2000, 80)) :=
  ⟨by decide, C7_resize_unclamped 3 2000 80 (by decide) (by decide) (by decide) (by decide)⟩

/-- The agent's auth middleware (src/agent/server.py 219-242): `/health` passes without a
token; every other path requires the query or cookie token to equal the access token. -/
def auth_middleware_allows (path : String) (reqToken : Option String) (token : String) :
    Bool :=
  if path = "/health" then true else reqToken == some token

/-- GET /health on the agent (lines 378-385): the literal response object.
`claude_running` is `claude is not None and claude.pid is not None`. -/
def agentHealth (claudeStarted : Bool) (pid : Option Nat) (sseCount : Nat) :
    List (String × JVal) :=
  [("status", JVal.s "healthy"),
   ("claude_running", JVal.b (claudeStarted && pid.isSome)),
   ("sse_connections", JVal.n sseCount)]

/-- `sse_stream` entry (lines 287-293): `connection_count["sse"] += 1`. -/
def sseOpen (c : Nat) : Nat := c + 1

/-- The stream generator's finally block (lines 316-320): the task is discarded from
`active_sse_tasks`, but `connection_count["sse"]` is never decremented. -/
def sseClose (c : Nat) : Nat := c

/-- C8, counterexample: the health response's boolean field is named `claude_running`, not
`child_alive`, and the `sse_connections` counter does not decrease when a stream closes
(after one open and one close it reads 1, not 0). -/
theorem C8_counterexample :
    (agentHealth true (some 1) 1).map Prod.fst
        = ["status", "claude_running", "sse_connections"] ∧
    "child_alive" ∉ (agentHealth true (some 1) 1).map Prod.fst ∧
    sseClose (sseOpen 0) = 1 := by
  refine ⟨rfl, by decide, rfl⟩

/-- C8, amended: GET /health requires no authentication and returns exactly the fields
`status` (the string "healthy"), `claude_running` (true iff the session object exists and
its pid field is set — cleared only by `stop`, not by probing child liveness), and
`sse_connections` (a counter of streams ever opened, unchanged when a stream closes). -/
theorem C8_health_fields (cs : Bool) (pid : Option Nat) (k : Nat)
    (req : Option String) (tok : String) :
    auth_middleware_allows "/health" req tok = true ∧
    (agentHealth cs pid k).map Prod.fst = ["status", "claude_running", "sse_connections"] ∧
    dlookup "status" (agentHealth cs pid k) = some (JVal.s "healthy") ∧
    dlookup "claude_running" (agentHealth cs pid k) = some (JVal.b (cs && pid.isSome)) ∧
    dlookup "sse_connections" (agentHealth cs pid k) = some (JVal.n k) ∧
    sseClose k = k := by
  refine ⟨by simp [auth_middleware_allows], rfl, rfl, rfl, rfl, rfl⟩

/-- Effects of `ClaudeProcess.stop`, in the order the source performs them. -/
inductive StopAct : Type
  | cancelTask
  | closeFd (fd : Nat)
  | sigterm (p : Nat)
  | sigkill (p : Nat)
  | reap (p : Nat)
deriving DecidableEq, Repr

/-- The fields of `ClaudeProcess` that `stop` reads and clears (lines 42-46). -/
structure ProcState where
  reader_task : Option Nat := none
  master_fd : Option Nat := none
  pid : Option Nat := none
  output_queue : List String := []
deriving DecidableEq, Repr

/-- `ClaudeProcess.stop` (lines 137-190): cancel the reader task if set and clear it;
close the master fd if set and clear it; if a pid is set, SIGTERM the child, reap it with
WNOHANG, and when the child does not exit within the 1-second grace
(`childExitsPromptly = false`) escalate to SIGKILL before the final blocking reap; clear
the pid; drain the queue.  Every close/kill/waitpid error is caught, so `stop` is total. -/
def ClaudeProcess.stop (s : ProcState) (childExitsPromptly : Bool) :
    ProcState × List StopAct :=
  let cancelActs : List StopAct :=
    match s.reader_task with
    | some _ => [StopAct.cancelTask]
    | none => []
  let closeActs : List StopAct :=
    match s.master_fd with
    | some fd => [StopAct.closeFd fd]
    | none => []
  let killActs : List StopAct :=
    match s.pid with
    | some p =>
        if childExitsPromptly then [StopAct.sigterm p, StopAct.reap p]
        else [StopAct.sigterm p, StopAct.sigkill p, StopAct.reap p]
    | none => []
  (⟨none, none, none, []⟩, cancelActs ++ closeActs ++ killActs)

/-- Number of closes of the master endpoint among a list of stop effects. -/
def countCloses (l : List StopAct) : Nat :=
  l.countP (fun a => match a with | StopAct.closeFd _ => true | _ => false)

/-- C9: `stop` clears `master_fd` and `pid`; a second call performs no effect at all (no
close, no signal, no reap, no exception — the effect list is empty and the state is
unchanged); the master endpoint is closed exactly once when it was open and never
otherwise. -/
theorem C9_stop_idempotent (s : ProcState) (b b2 : Bool) :
    (ClaudeProcess.stop s b).1.master_fd = none ∧
    (ClaudeProcess.stop s b).1.pid = none ∧
    ClaudeProcess.stop (ClaudeProcess.stop s b).1 b2 = ((ClaudeProcess.stop s b).1, []) ∧
    countCloses (ClaudeProcess.stop s b).2 = (if s.master_fd.isSome then 1 else 0) ∧
    countCloses (ClaudeProcess.stop (ClaudeProcess.stop s b).1 b2).2 = 0 := by
  obtain ⟨rt, mf, pd, oq⟩ := s
  refine ⟨rfl, rfl, rfl, ?_, rfl⟩
  cases rt <;> cases mf <;> cases pd <;> cases b <;> rfl

end Taskbot

namespace Taskbot

/-! Relay connection lifecycle (src/relay/server.py 153-236) and the two
WebSocket receive loops (318-448). -/

theorem dlookup_dinsert {α : Type} (k k2 : String) (v : α) (d : Dict α) :
    dlookup k2 (dinsert k v d) = if k = k2 then some v else dlookup k2 d := by
  induction d with
  | nil => simp [dinsert, dlookup]
  | cons hd tl ih =>
      obtain ⟨k0, v0⟩ := hd
      by_cases h0 : k0 = k
      · subst h0
        by_cases h2 : k0 = k2 <;> simp [dinsert, dlookup, h2]
      · by_cases h2 : k0 = k2
        · subst h2
          have hne : ¬ (k = k0) := fun hc => h0 hc.symm
          simp [dinsert, dlookup, h0, hne]
        · simp [dinsert, dlookup, h0, h2, ih]

/-- The notification `{"type": "agent_online", "agent_id": aid}` (lines 169-172). -/
def agentOnlineFrame (aid : String) : Frame :=
  ⟨"agent_online", [("agent_id", JVal.s aid)]⟩

/-- The per-client sends performed by `connect_agent`: one `agent_online` frame on the
socket of every bound client that is present in the clients table (lines 166-172; the
source's `client and client.websocket` guard cannot fail here because every embedded
client carries a socket). -/
def onlineSends (clients : Dict Client) (aid : String) (bound : List String) :
    List (Nat × Frame) :=
  bound.foldr
    (fun cid acc =>
      match dlookup cid clients with
      | some c => (c.websocket, agentOnlineFrame aid) :: acc
      | none => acc) []

/-- `RelayServer.connect_agent` (lines 153-172): install the new websocket over whatever
socket the agent record held and mark the agent online, then notify the bound clients.
The source never closes a previously attached socket, so the list of sockets this
operation closes (with close reasons) comes from nothing and is empty.  Returns
(new state, sends to client sockets, closed sockets).  The agent was verified by the
caller, so the `none` branch is unreachable there. -/
def connect_agent (s : RelayState) (aid : String) (sock : Nat) :
    RelayState × List (Nat × Frame) × List (Nat × String) :=
  match dlookup aid s.agents with
  | none => (s, [], [])
  | some agent =>
      let agent2 := { agent with websocket := some sock, is_online := true }
      ({ s with agents := dinsert aid agent2 s.agents },
       onlineSends s.clients aid ((dlookup aid s.agent_clients).getD []),
       [])

/-- `RelayServer.disconnect_agent` (lines 174-178): clear the socket, mark offline. -/
def disconnect_agent (s : RelayState) (aid : String) : RelayState :=
  match dlookup aid s.agents with
  | none => s
  | some a =>
      { s with
          agents := dinsert aid { a with websocket := none, is_online := false } s.agents }

/-- `RelayServer.connect_client` (lines 180-188): create the record and store it. -/
def connect_client (s : RelayState) (cid : String) (sock : Nat) : RelayState :=
  { s with clients := dinsert cid ⟨cid, sock, none⟩ s.clients }

/-- Python `set.add`: append unless already a member. -/
def setAdd (x : String) (l : List String) : List String :=
  if l.contains x then l else l ++ [x]

/-- `RelayServer.bind_client_to_agent` (lines 198-208): unknown agent → `(s, false)` and
no mutation; otherwise set the client's `connected_agent` (the stored record and the
handler's object alias each other in the source) and add the client id to
`agent_clients[agent_id]` — an unguarded index whose missing key would raise `KeyError`,
embedded as `none`. -/
def bind_client_to_agent (s : RelayState) (cid aid : String) :
    Option (RelayState × Bool) :=
  match dlookup aid s.agents with
  | none => some (s, false)
  | some _ =>
      let clients2 : Dict Client :=
        match dlookup cid s.clients with
        | some c => dinsert cid { c with connected_agent := some aid } s.clients
        | none => s.clients
      match dlookup aid s.agent_clients with
      | none => none
      | some members =>
          some ({ s with
                    clients := clients2,
                    agent_clients := dinsert aid (setAdd cid members) s.agent_clients },
                true)

/-- `RelayServer.disconnect_client` (lines 190-196): when the client is bound, discard its
id from `agent_clients[connected_agent]` — an unguarded index, missing key = `KeyError` =
`none` — then delete the client record if present (`derase` is a no-op otherwise). -/
def disconnect_client (s : RelayState) (cid : String) : Option RelayState :=
  match dlookup cid s.clients with
  | none => some s
  | some c =>
      match c.connected_agent with
      | none => some { s with clients := derase cid s.clients }
      | some aid =>
          match dlookup aid s.agent_clients with
          | none => none
          | some members =>
              some { s with
                       agent_clients :=
                         dinsert aid (members.filter (fun m => m != cid)) s.agent_clients,
                       clients := derase cid s.clients }

/-- `RelayServer.forward_to_agent` (lines 210-220): no socket or offline → no send and
`False`; otherwise the frame is sent on the agent's current socket. -/
def forward_to_agent (s : RelayState) (aid : String) (msg : Frame) :
    Option (Nat × Frame) :=
  match dlookup aid s.agents with
  | none => none
  | some a =>
      match a.websocket with
      | none => none
      | some sock => if a.is_online then some (sock, msg) else none

/-- `RelayServer.send_to_client` (lines 222-229): attempt the send; an exception on a
failing socket is caught, printed, and turned into `False` — no table is touched. -/
def send_to_client (failSocks : List Nat) (c : Client) (msg : Frame) : Bool :=
  decide (c.websocket ∉ failSocks)

/-- `RelayServer.broadcast_to_clients` (lines 231-236): iterate the bound set, look each
client up, send.  The boolean from `send_to_client` is ignored: a failing client stays in
every table and iteration continues.  Returns the unchanged state with the
(client_id, socket) pairs that received `msg`. -/
def broadcast_to_clients (s : RelayState) (failSocks : List Nat) (aid : String)
    (msg : Frame) : RelayState × List (String × Nat) :=
  (s,
   ((dlookup aid s.agent_clients).getD []).foldr
     (fun cid acc =>
       match dlookup cid s.clients with
       | some c =>
           if send_to_client failSocks c msg then (cid, c.websocket) :: acc else acc
       | none => acc) [])

end Taskbot

namespace Taskbot

/-- A concrete relay state: agent "A" (key "k") registered and attached with socket 1. -/
def exASt : RelayState :=
  (connect_agent (register_agent ⟨[], [], []⟩ "A" "k" "m").1 "A" 1).1

/-- C3, counterexample: a second successful agent attach does not close the prior socket
at all, let alone with reason `replaced` — with socket 1 attached, attaching socket 2
produces an empty close list (the source's `connect_agent` contains no close), while the
claim requires the close `(1, "replaced")` to occur before installation. -/
theorem C3_counterexample :
    (connect_agent exASt "A" 2).2.2 = [] ∧
    (dlookup "A" (connect_agent exASt "A" 2).1.agents).map Agent.websocket
        = some (some 2) := by
  constructor <;> decide

/-- C3, amended: a second successful attach silently overwrites the agent record's socket
with the new one — the prior socket is not closed (no close with reason `replaced`), but
after the attach returns the record references only the new socket, so every frame
forwarded to the agent is delivered on the new socket and never on the stale one. -/
theorem C3_attach_replaces (s : RelayState) (aid : String) (a : Agent) (newSock : Nat)
    (h : dlookup aid s.agents = some a) :
    (connect_agent s aid newSock).2.2 = [] ∧
    (dlookup aid (connect_agent s aid newSock).1.agents).map Agent.websocket
        = some (some newSock) ∧
    (∀ msg, forward_to_agent (connect_agent s aid newSock).1 aid msg
        = some (newSock, msg)) := by
  unfold connect_agent
  rw [h]
  dsimp only
  refine ⟨rfl, ?_, ?_⟩
  · rw [dlookup_dinsert, if_pos rfl]
    rfl
  · intro _
    unfold forward_to_agent
    rw [dlookup_dinsert, if_pos rfl]
    rfl

theorem C3_attach_replaces_witness :
    dlookup "A" exASt.agents = some ⟨"A", "k", "m", some 1, true⟩ ∧
    ((connect_agent exASt "A" 2).2.2 = [] ∧
     (dlookup "A" (connect_agent exASt "A" 2).1.agents).map Agent.websocket
         = some (some 2) ∧
     (∀ msg, forward_to_agent (connect_agent exASt "A" 2).1 "A" msg = some (2, msg))) :=
  ⟨by decide, C3_attach_replaces exASt "A" ⟨"A", "k", "m", some 1, true⟩ 2 (by decide)⟩

/-- Effects a client receive-loop iteration can produce. -/
inductive ClientEffect : Type
  | toClient (sock : Nat) (msg : Frame)
  | toAgent (sock : Nat) (msg : Frame)
deriving DecidableEq, Repr

/-- The reply `{"type": "error", "message": "Agent is offline"}` (lines 435-438). -/
def errorOfflineFrame : Frame :=
  ⟨"error", [("message", JVal.s "Agent is offline")]⟩

/-- One iteration of the `client_websocket` receive loop (lines 417-441) for the client
`cid` with socket `clientSock`, bound to `aid`.  `raw = none` embeds a frame whose
payload is not valid JSON: the decode error is logged and the loop continues.  An
`input` frame is enriched with `client_id` and forwarded when the agent is online, and
otherwise answered with one offline error frame; `ping` gets `pong`; any other type
falls through ignored.  The boolean reports whether this message closed the connection
(the source closes only on a transport-level disconnect, never on content). -/
def client_ws_step (s : RelayState) (cid aid : String) (clientSock : Nat)
    (raw : Option Frame) : List ClientEffect × Bool :=
  match raw with
  | none => ([], false)
  | some msg =>
      if msg.ty = "input" then
        match dlookup aid s.agents with
        | none => ([], false)
        | some agent =>
            if agent.is_online then
              match forward_to_agent s aid
                  ⟨msg.ty, msg.fields ++ [("client_id", JVal.s cid)]⟩ with
              | some d => ([ClientEffect.toAgent d.1 d.2], false)
              | none => ([], false)
            else ([ClientEffect.toClient clientSock errorOfflineFrame], false)
      else if msg.ty = "ping" then
        ([ClientEffect.toClient clientSock ⟨"pong", []⟩], false)
      else ([], false)

/-- Effects an agent receive-loop iteration can produce. -/
inductive AgentEffect : Type
  | ack (sock : Nat) (msg : Frame)
  | fanout (aid : String) (msg : Frame)
deriving DecidableEq, Repr

/-- One iteration of the `agent_websocket` receive loop (lines 339-365) for the agent
`aid` on socket `agentSock`.  `raw = none` embeds invalid JSON: logged, loop continues.
`heartbeat` is acknowledged on the agent socket; `output`, `error` and `status` are
fanned out to the bound clients; anything else is ignored.  The boolean reports whether
this message closed the connection (never: only a transport-level disconnect ends the
loop). -/
def agent_ws_step (aid : String) (agentSock : Nat) (raw : Option Frame) :
    List AgentEffect × Bool :=
  match raw with
  | none => ([], false)
  | some msg =>
      if msg.ty = "heartbeat" then
        ([AgentEffect.ack agentSock ⟨"heartbeat_ack", []⟩], false)
      else if msg.ty = "output" then ([AgentEffect.fanout aid msg], false)
      else if msg.ty = "error" then ([AgentEffect.fanout aid msg], false)
      else if msg.ty = "status" then ([AgentEffect.fanout aid msg], false)
      else ([], false)

/-- C4, counterexample: a frame whose payload is not well-formed JSON does not close the
peer's connection on either side — both receive loops log the decode error and continue
with no effect, while the claim requires the relay to close that peer. -/
theorem C4_counterexample :
    agent_ws_step "A" 1 none = ([], false) ∧
    client_ws_step exASt "c1" "A" 5 none = ([], false) := by
  constructor <;> rfl

theorem agent_ws_step_keeps_open (aid : String) (sock : Nat) (raw : Option Frame) :
    (agent_ws_step aid sock raw).2 = false := by
  unfold agent_ws_step
  cases raw with
  | none => rfl
  | some msg =>
      dsimp only
      split_ifs <;> rfl

theorem client_ws_step_keeps_open (s : RelayState) (cid aid : String) (sock : Nat)
    (raw : Option Frame) : (client_ws_step s cid aid sock raw).2 = false := by
  unfold client_ws_step
  cases raw with
  | none => rfl
  | some msg =>
      dsimp only
      by_cases h1 : msg.ty = "input"
      · rw [if_pos h1]
        cases dlookup aid s.agents with
        | none => rfl
        | some agent =>
            dsimp only
            by_cases h2 : agent.is_online = true
            · rw [if_pos h2]
              cases forward_to_agent s aid
                  ⟨msg.ty, msg.fields ++ [("client_id", JVal.s cid)]⟩ with
              | none => rfl
              | some d => rfl
            · rw [if_neg h2]
      · rw [if_neg h1]
        by_cases h2 : msg.ty = "ping"
        · rw [if_pos h2]
        · rw [if_neg h2]

/-- C4, amended: malformed JSON is logged and ignored on both receive loops — the
connection stays open and nothing is sent or broadcast; a well-formed frame with an
unknown `type` is likewise ignored without closing; in fact no received frame ever makes
the relay close a connection (loops end only on transport disconnect). -/
theorem C4_malformed_ignored (s : RelayState) (aid cid : String) (asock csock : Nat)
    (raw : Option Frame) (msg : Frame)
    (hunk : msg.ty ∉ ["heartbeat", "output", "error", "status", "input", "ping"]) :
    (agent_ws_step aid asock raw).2 = false ∧
    (client_ws_step s cid aid csock raw).2 = false ∧
    agent_ws_step aid asock none = ([], false) ∧
    client_ws_step s cid aid csock none = ([], false) ∧
    agent_ws_step aid asock (some msg) = ([], false) ∧
    client_ws_step s cid aid csock (some msg) = ([], false) := by
  simp only [List.mem_cons, List.mem_singleton, not_or] at hunk
  obtain ⟨hh, ho, he, hs, hi, hp, -⟩ := hunk
  refine ⟨agent_ws_step_keeps_open aid asock raw,
          client_ws_step_keeps_open s cid aid csock raw, rfl, rfl, ?_, ?_⟩
  · unfold agent_ws_step
    dsimp only
    rw [if_neg hh, if_neg ho, if_neg he, if_neg hs]
  · unfold client_ws_step
    dsimp only
    rw [if_neg hi, if_neg hp]

theorem C4_malformed_ignored_witness :
    ((⟨"frobnicate", []⟩ : Frame).ty
        ∉ ["heartbeat", "output", "error", "status", "input", "ping"]) ∧
    ((agent_ws_step "A" 1 none).2 = false ∧
     (client_ws_step exASt "c1" "A" 5 none).2 = false ∧
     agent_ws_step "A" 1 none = ([], false) ∧
     client_ws_step exASt "c1" "A" 5 none = ([], false) ∧
     agent_ws_step "A" 1 (some ⟨"frobnicate", []⟩) = ([], false) ∧
     client_ws_step exASt "c1" "A" 5 (some ⟨"frobnicate", []⟩) = ([], false)) :=
  ⟨by decide, C4_malformed_ignored exASt "A" "c1" 1 5 none ⟨"frobnicate", []⟩ (by decide)⟩

end Taskbot

namespace Taskbot

/-- A concrete relay state: agent "A" registered, clients "c1" (socket 1) and "c2"
(socket 2) connected and bound to "A". -/
def exBSt : RelayState :=
  ((bind_client_to_agent
      (connect_client
        ((bind_client_to_agent
            (connect_client (register_agent ⟨[], [], []⟩ "A" "k" "m").1 "c1" 1)
            "c1" "A").getD (⟨[], [], []⟩, false)).1
        "c2" 2)
      "c2" "A").getD (⟨[], [], []⟩, false)).1

/-- C5, counterexample: with "c1" (socket 1) failing and "c2" (socket 2) healthy, the
broadcast still delivers the frame to "c2", but "c1" is not removed from the per-agent
client set — the send failure is caught and its result discarded, so the set still
contains both clients, while the claim requires "c1" to be removed. -/
theorem C5_counterexample :
    (broadcast_to_clients exBSt [1] "A" ⟨"output", []⟩).2 = [("c2", 2)] ∧
    dlookup "A" (broadcast_to_clients exBSt [1] "A" ⟨"output", []⟩).1.agent_clients
        = some ["c1", "c2"] := by
  constructor <;> decide

/-- C5, amended: a per-client send failure during a broadcast affects nothing: the failing
client stays in every table (the state is returned unchanged), and every other bound
client whose socket does not fail still receives that same frame. -/
theorem C5_broadcast_isolation (s : RelayState) (failSocks : List Nat) (aid : String)
    (msg : Frame) (cid : String) (c : Client)
    (hb : cid ∈ (dlookup aid s.agent_clients).getD [])
    (hc : dlookup cid s.clients = some c)
    (hf : c.websocket ∉ failSocks) :
    (broadcast_to_clients s failSocks aid msg).1 = s ∧
    (cid, c.websocket) ∈ (broadcast_to_clients s failSocks aid msg).2 := by
  refine ⟨rfl, ?_⟩
  unfold broadcast_to_clients
  dsimp only
  generalize (dlookup aid s.agent_clients).getD [] = l at hb ⊢
  induction l with
  | nil => cases hb
  | cons x xs ih =>
      simp only [List.foldr_cons]
      rcases List.mem_cons.mp hb with hx | hx
      · subst hx
        rw [hc]
        dsimp only
        rw [if_pos (by simp [send_to_client, hf])]
        exact List.mem_cons_self _ _
      · have hm := ih hx
        cases hlx : dlookup x s.clients with
        | none => exact hm
        | some cx =>
            dsimp only
            by_cases hs2 : send_to_client failSocks cx msg = true
            · rw [if_pos hs2]
              exact List.mem_cons_of_mem _ hm
            · rw [if_neg hs2]
              exact hm

theorem C5_broadcast_isolation_witness :
    ("c2" ∈ (dlookup "A" exBSt.agent_clients).getD [] ∧
     dlookup "c2" exBSt.clients = some ⟨"c2", 2, some "A"⟩ ∧
     (2 : Nat) ∉ [1]) ∧
    ((broadcast_to_clients exBSt [1] "A" ⟨"output", []⟩).1 = exBSt ∧
     ("c2", 2) ∈ (broadcast_to_clients exBSt [1] "A" ⟨"output", []⟩).2) :=
  ⟨⟨by decide, by decide, by decide⟩,
   C5_broadcast_isolation exBSt [1] "A" ⟨"output", []⟩ "c2" ⟨"c2", 2, some "A"⟩
     (by decide) (by decide) (by decide)⟩

theorem onlineSends_frames (clients : Dict Client) (aid : String) (bound : List String)
    (p : Nat × Frame) (hp : p ∈ onlineSends clients aid bound) :
    p.2 = agentOnlineFrame aid := by
  induction bound with
  | nil => cases hp
  | cons x xs ih =>
      unfold onlineSends at hp
      simp only [List.foldr_cons] at hp
      cases hx : dlookup x clients with
      | none =>
          rw [hx] at hp
          exact ih hp
      | some cx =>
          rw [hx] at hp
          rcases List.mem_cons.mp hp with h | h
          · subst h
            rfl
          · exact ih h

/-- C6: an `input` frame from a bound client while its agent is offline produces exactly
one `{"type":"error","message":"Agent is offline"}` frame back to that client and no
other effect: nothing is forwarded toward the agent and nothing is buffered (the loop
body owns no queue and mutates no table); a later reconnect of the agent generates
nothing but `agent_online` notifications to clients, so the agent receives none of the
input sent during the offline window. -/
theorem C6_offline_input (s : RelayState) (cid aid : String) (sock newSock : Nat)
    (a : Agent) (msg : Frame)
    (ha : dlookup aid s.agents = some a) (hoff : a.is_online = false)
    (hty : msg.ty = "input") :
    client_ws_step s cid aid sock (some msg)
        = ([ClientEffect.toClient sock errorOfflineFrame], false) ∧
    (∀ p ∈ (connect_agent s aid newSock).2.1, p.2 = agentOnlineFrame aid) := by
  constructor
  · unfold client_ws_step
    dsimp only
    rw [if_pos hty, ha]
    dsimp only
    rw [if_neg (by rw [hoff]; exact Bool.false_ne_true)]
  · intro p hp
    unfold connect_agent at hp
    rw [ha] at hp
    exact onlineSends_frames s.clients aid _ p hp

theorem C6_offline_input_witness :
    (dlookup "A" (connect_client (register_agent ⟨[], [], []⟩ "A" "k" "m").1 "c1" 7).agents
        = some ⟨"A", "k", "m", none, false⟩ ∧
     (Agent.is_online ⟨"A", "k", "m", none, false⟩) = false ∧
     (Frame.mk "input" [("data", JVal.s "x")]).ty = "input") ∧
    (client_ws_step (connect_client (register_agent ⟨[], [], []⟩ "A" "k" "m").1 "c1" 7)
        "c1" "A" 7 (some ⟨"input", [("data", JVal.s "x")]⟩)
        = ([ClientEffect.toClient 7 errorOfflineFrame], false) ∧
     (∀ p ∈ (connect_agent
          (connect_client (register_agent ⟨[], [], []⟩ "A" "k" "m").1 "c1" 7)
          "A" 9).2.1, p.2 = agentOnlineFrame "A")) :=
  ⟨⟨by decide, by decide, by decide⟩,
   C6_offline_input (connect_client (register_agent ⟨[], [], []⟩ "A" "k" "m").1 "c1" 7)
     "c1" "A" 7 9 ⟨"A", "k", "m", none, false⟩ ⟨"input", [("data", JVal.s "x")]⟩
     (by decide) (by decide) (by decide)⟩

end Taskbot

namespace Taskbot

/-! The reachable-state invariant relating the three relay tables (C10). -/

theorem dlookup_derase {α : Type} (k k2 : String) (d : Dict α) :
    dlookup k2 (derase k d) = if k2 = k then none else dlookup k2 d := by
  induction d with
  | nil => simp [derase, dlookup]
  | cons hd tl ih =>
      obtain ⟨k0, v0⟩ := hd
      by_cases h0 : k0 = k <;> by_cases h2 : k2 = k <;> by_cases h3 : k0 = k2 <;>
        simp_all [derase, dlookup]

theorem isSome_dinsert {α : Type} (k k2 : String) (v : α) (d : Dict α)
    (h : (dlookup k2 d).isSome = true) : (dlookup k2 (dinsert k v d)).isSome = true := by
  rw [dlookup_dinsert]
  by_cases hk : k = k2
  · rw [if_pos hk]; rfl
  · rw [if_neg hk]; exact h

theorem isSome_dinsert_iff {α : Type} (k k2 : String) (v : α) (d : Dict α) :
    (dlookup k2 (dinsert k v d)).isSome = true
      ↔ (k = k2 ∨ (dlookup k2 d).isSome = true) := by
  rw [dlookup_dinsert]
  by_cases hk : k = k2
  · simp [hk]
  · simp [hk]

/-- The table-inclusion invariant: every id in the agents table has an entry in
`agent_clients`, and every stored client's `connected_agent`, when set, names a
registered agent. -/
def Inv (s : RelayState) : Prop :=
  (∀ aid, (dlookup aid s.agents).isSome = true →
      (dlookup aid s.agent_clients).isSome = true) ∧
  (∀ cid c, dlookup cid s.clients = some c →
      ∀ aid, c.connected_agent = some aid → (dlookup aid s.agents).isSome = true)

/-- C10: in every state satisfying the table-inclusion invariant, registration creates
the agent's client set empty, all five mutating operations preserve the invariant, and
the two unguarded `agent_clients` indexings — `self.agent_clients[agent_id]` in
`bind_client_to_agent` and `self.agent_clients[client.connected_agent]` in
`disconnect_client` — never raise `KeyError` (both operations return `some`). -/
theorem C10_table_inclusion (s : RelayState) (h : Inv s) :
    (∀ id key nm, Inv (register_agent s id key nm).1 ∧
        dlookup id (register_agent s id key nm).1.agent_clients = some []) ∧
    (∀ aid sock, Inv (connect_agent s aid sock).1) ∧
    (∀ aid, Inv (disconnect_agent s aid)) ∧
    (∀ cid sock, Inv (connect_client s cid sock)) ∧
    (∀ cid aid, (bind_client_to_agent s cid aid).isSome = true ∧
        (∀ r, bind_client_to_agent s cid aid = some r → Inv r.1)) ∧
    (∀ cid, (disconnect_client s cid).isSome = true ∧
        (∀ s2, disconnect_client s cid = some s2 → Inv s2)) := by
  unfold Inv at h
  obtain ⟨h1, h2⟩ := h
  refine ⟨?_, ?_, ?_, ?_, ?_, ?_⟩
  · -- register_agent
    intro id key nm
    unfold register_agent
    dsimp only
    refine And.intro (And.intro ?_ ?_) ?_
    · intro aid ha
      rcases (isSome_dinsert_iff id aid _ s.agents).mp ha with hk | hk
      · exact (isSome_dinsert_iff id aid [] s.agent_clients).mpr (Or.inl hk)
      · exact isSome_dinsert _ _ _ _ (h1 aid hk)
    · intro cid c hc aid hca
      exact isSome_dinsert _ _ _ _ (h2 cid c hc aid hca)
    · rw [dlookup_dinsert, if_pos rfl]
  · -- connect_agent
    intro aid sock
    unfold connect_agent
    cases ha : dlookup aid s.agents with
    | none => exact And.intro h1 h2
    | some agent =>
        dsimp only
        refine And.intro ?_ ?_
        · intro aid2 ha2
          rcases (isSome_dinsert_iff aid aid2 _ s.agents).mp ha2 with hk | hk
          · subst hk
            exact h1 aid (by rw [ha]; rfl)
          · exact h1 aid2 hk
        · intro cid c hc aid2 hca
          exact isSome_dinsert _ _ _ _ (h2 cid c hc aid2 hca)
  · -- disconnect_agent
    intro aid
    unfold disconnect_agent
    cases ha : dlookup aid s.agents with
    | none => exact And.intro h1 h2
    | some agent =>
        dsimp only
        refine And.intro ?_ ?_
        · intro aid2 ha2
          rcases (isSome_dinsert_iff aid aid2 _ s.agents).mp ha2 with hk | hk
          · subst hk
            exact h1 aid (by rw [ha]; rfl)
          · exact h1 aid2 hk
        · intro cid c hc aid2 hca
          exact isSome_dinsert _ _ _ _ (h2 cid c hc aid2 hca)
  · -- connect_client
    intro cid sock
    unfold connect_client
    refine And.intro h1 ?_
    intro cid2 c hc aid hca
    rw [dlookup_dinsert] at hc
    by_cases hk : cid = cid2
    · rw [if_pos hk] at hc
      injection hc with hc
      subst hc
      exact Option.noConfusion hca
    · rw [if_neg hk] at hc
      exact h2 cid2 c hc aid hca
  · -- bind_client_to_agent
    intro cid aid
    unfold bind_client_to_agent
    cases ha : dlookup aid s.agents with
    | none =>
        refine And.intro rfl ?_
        intro r hr
        injection hr with hr
        subst hr
        exact And.intro h1 h2
    | some a0 =>
        dsimp only
        have hac : (dlookup aid s.agent_clients).isSome = true :=
          h1 aid (by rw [ha]; rfl)
        cases hm : dlookup aid s.agent_clients with
        | none => rw [hm] at hac; exact absurd hac (by simp)
        | some members =>
            cases hcl : dlookup cid s.clients with
            | none =>
                dsimp only
                refine And.intro rfl ?_
                intro r hr
                injection hr with hr
                subst hr
                dsimp only
                refine And.intro ?_ ?_
                · intro aid2 ha2
                  exact isSome_dinsert _ _ _ _ (h1 aid2 ha2)
                · intro cid2 c hc aid2 hca
                  exact h2 cid2 c hc aid2 hca
            | some c0 =>
                dsimp only
                refine And.intro rfl ?_
                intro r hr
                injection hr with hr
                subst hr
                dsimp only
                refine And.intro ?_ ?_
                · intro aid2 ha2
                  exact isSome_dinsert _ _ _ _ (h1 aid2 ha2)
                · intro cid2 c hc aid2 hca
                  rw [dlookup_dinsert] at hc
                  by_cases hk : cid = cid2
                  · rw [if_pos hk] at hc
                    injection hc with hc
                    subst hc
                    have : aid = aid2 := by
                      have := hca
                      dsimp only at this
                      injection this
                    subst this
                    rw [ha]
                    rfl
                  · rw [if_neg hk] at hc
                    exact h2 cid2 c hc aid2 hca
  · -- disconnect_client
    intro cid
    unfold disconnect_client
    cases hcl : dlookup cid s.clients with
    | none =>
        refine And.intro rfl ?_
        intro s2 hs2
        injection hs2 with hs2
        subst hs2
        exact And.intro h1 h2
    | some c =>
        dsimp only
        cases hca : c.connected_agent with
        | none =>
            dsimp only
            refine And.intro rfl ?_
            intro s2 hs2
            injection hs2 with hs2
            subst hs2
            refine And.intro h1 ?_
            intro cid2 c2 hc2 aid2 hca2
            rw [dlookup_derase] at hc2
            by_cases hk : cid2 = cid
            · rw [if_pos hk] at hc2
              exact Option.noConfusion hc2
            · rw [if_neg hk] at hc2
              exact h2 cid2 c2 hc2 aid2 hca2
        | some aid =>
            dsimp only
            have hag : (dlookup aid s.agents).isSome = true := h2 cid c hcl aid hca
            have hac : (dlookup aid s.agent_clients).isSome = true := h1 aid hag
            obtain ⟨members, hm⟩ := Option.isSome_iff_exists.mp hac
            rw [hm]
            dsimp only
            refine And.intro rfl ?_
            intro s2 hs2
            injection hs2 with hs2
            subst hs2
            refine And.intro ?_ ?_
            · intro aid2 ha2
              exact isSome_dinsert _ _ _ _ (h1 aid2 ha2)
            · intro cid2 c2 hc2 aid2 hca2
              rw [dlookup_derase] at hc2
              by_cases hk : cid2 = cid
              · rw [if_pos hk] at hc2
                exact Option.noConfusion hc2
              · rw [if_neg hk] at hc2
                exact h2 cid2 c2 hc2 aid2 hca2

theorem C10_table_inclusion_witness :
    Inv exBSt ∧
    ((∀ id key nm, Inv (register_agent exBSt id key nm).1 ∧
        dlookup id (register_agent exBSt id key nm).1.agent_clients = some []) ∧
     (∀ aid sock, Inv (connect_agent exBSt aid sock).1) ∧
     (∀ aid, Inv (disconnect_agent exBSt aid)) ∧
     (∀ cid sock, Inv (connect_client exBSt cid sock)) ∧
     (∀ cid aid, (bind_client_to_agent exBSt cid aid).isSome = true ∧
        (∀ r, bind_client_to_agent exBSt cid aid = some r → Inv r.1)) ∧
     (∀ cid, (disconnect_client exBSt cid).isSome = true ∧
        (∀ s2, disconnect_client exBSt cid = some s2 → Inv s2))) :=
  have hinv : Inv exBSt := by
    refine And.intro ?_ ?_
    · intro aid ha
      by_cases hk : "A" = aid
      · subst hk
        decide
      · exfalso
        have hval : dlookup aid exBSt.agents
            = if "A" = aid then some ⟨"A", "k", "m", none, false⟩ else none := rfl
        rw [hval, if_neg hk] at ha
        exact Bool.noConfusion ha
    · intro cid c hc aid hca
      have hval : dlookup cid exBSt.clients
          = if "c1" = cid then some ⟨"c1", 1, some "A"⟩
            else if "c2" = cid then some ⟨"c2", 2, some "A"⟩ else none := rfl
      rw [hval] at hc
      by_cases h1c : "c1" = cid
      · rw [if_pos h1c] at hc
        injection hc with hc
        subst hc
        injection hca with hca
        subst hca
        decide
      · rw [if_neg h1c] at hc
        by_cases h2c : "c2" = cid
        · rw [if_pos h2c] at hc
          injection hc with hc
          subst hc
          injection hca with hca
          subst hca
          decide
        · rw [if_neg h2c] at hc
          exact Option.noConfusion hc
  ⟨hinv, C10_table_inclusion exBSt hinv⟩

end Taskbot
